import Mathlib

/-!
Verification of the RentRoll AI Optimizer pricing engine
(`backend/app/pricing.py` and the batch endpoint in `backend/app/main.py`).

Numeric values are modelled as rationals (`ℚ`).  Python's built-in
`round` (banker's rounding, ties to even) is modelled by `pyRound`
(to an integer) and `pyRound2` (to two decimal places).  A pandas
`DataFrame` of comparables is modelled by a list of rows together
with one flag per optional column recording whether that column is
present in the frame.  Python `None` becomes `Option`, exceptions
become `Except`.
-/

namespace Ajax

/-- Python `round(q)`: round to the nearest integer, ties to even. -/
def pyRound (q : ℚ) : ℤ :=
  let f := ⌊q⌋
  let r := q - (f : ℚ)
  if r < 1/2 then f
  else if 1/2 < r then f + 1
  else if f % 2 = 0 then f else f + 1

/-- Python `round(q, 2)`: round to two decimal places, ties to even. -/
def pyRound2 (q : ℚ) : ℚ := (pyRound (q * 100) : ℚ) / 100

/-- Python truthiness fallback `a or b` for numbers: `b` when `a = 0`. -/
def pyOrQ (a b : ℚ) : ℚ := if a = 0 then b else a

/-- Model of `numpy.clip`: `npClip x lo hi = min (max x lo) hi`. -/
def npClip (x lo hi : ℚ) : ℚ := min (max x lo) hi

/-- Model of `pandas.Series.median`: sort, take the middle element (odd length)
or the mean of the two middle elements (even length). -/
def medianQ (xs : List ℚ) : Option ℚ :=
  if xs = [] then none
  else
    let s := List.insertionSort (fun a b => a ≤ b) xs
    let n := s.length
    some (if n % 2 = 1 then s.getD (n / 2) 0
          else (s.getD (n / 2 - 1) 0 + s.getD (n / 2) 0) / 2)

/-- Model of `pandas.Series.mean` of a non-empty list (callers guard emptiness). -/
def listMean (xs : List ℚ) : ℚ := xs.sum / (xs.length : ℚ)

/-- Model of `pandas.Series.min` of a non-empty list (callers guard emptiness). -/
def listMin (xs : List ℚ) : ℚ :=
  match xs with
  | [] => 0
  | h :: t => t.foldl min h

/-- Model of `pandas.Series.max` of a non-empty list (callers guard emptiness). -/
def listMax (xs : List ℚ) : ℚ :=
  match xs with
  | [] => 0
  | h :: t => t.foldl max h

/-- Constant `settings.default_elasticity` from `backend/app/config.py`. -/
def default_elasticity : ℚ := -(3/1000)

/-- Constant `settings.max_price_adjustment` from `backend/app/config.py`. -/
def max_price_adjustment : ℚ := 1/4

/-- One row of the comparables `DataFrame`. -/
structure CompRow where
  comp_id : String
  comp_price : ℚ
  comp_sqft : ℚ
  is_available : Bool
  similarity_score : ℚ
  deriving DecidableEq, Repr

/-- The comparables `DataFrame`: rows plus column-presence flags
(the code tests `'col' in df.columns` before using a column). -/
structure CompsData where
  rows : List CompRow
  hasCompId : Bool
  hasCompPrice : Bool
  hasCompSqft : Bool
  hasIsAvailable : Bool
  hasSimilarity : Bool
  deriving DecidableEq, Repr

/-- The `unit_data` dict fields the optimizer reads. -/
structure UnitData where
  unit_id : String
  sqft : Option ℚ
  our_sqft : Option ℚ
  advertised_rent : ℚ
  deriving DecidableEq, Repr

/-- Model of `unit_data.get('sqft') or unit_data.get('our_sqft')`:
Python `or` falls through on `None` and on `0`. -/
def unitSqftValue (u : UnitData) : Option ℚ :=
  match u.sqft with
  | some s => if s = 0 then u.our_sqft else some s
  | none => u.our_sqft

/-- Enum `OptimizationStrategy` from `backend/app/models.py`; `invalid tag`
models an arbitrary value outside the enum (the dynamically-typed
argument an erroneous caller can pass). -/
inductive OptimizationStrategy where
  | revenue
  | lease_up
  | balanced
  | invalid (tag : String)
  deriving DecidableEq, Repr

/-- The string shown in the `ValueError` for an unknown strategy. -/
def OptimizationStrategy.tagString : OptimizationStrategy → String
  | .revenue => "revenue"
  | .lease_up => "lease_up"
  | .balanced => "balanced"
  | .invalid t => t

/-- Class `DemandCurve` (kept for backwards compatibility in the source). -/
structure DemandCurve where
  elasticity : ℚ
  deriving DecidableEq, Repr

/-- Constructor `DemandCurve.__init__`: `elasticity or settings.default_elasticity`
(Python `or`: `None` and `0.0` both fall back to the default). -/
def DemandCurve.init (e : Option ℚ) : DemandCurve :=
  ⟨match e with
   | some v => if v = 0 then default_elasticity else v
   | none => default_elasticity⟩

/-- Method `DemandCurve.probability` transcribed from `pricing.py` lines 38-60. -/
def DemandCurve.probability (dc : DemandCurve) (price base_price : ℚ) : ℚ :=
  if base_price ≤ 0 then 1/2
  else
    let price_ratio := (price - base_price) / base_price
    let prob := 1 + dc.elasticity * price_ratio * 100
    let price_ratio2 := if base_price ≠ 0 then price / base_price else 1
    let upper_cap : ℚ := if price_ratio2 < 6/10 then 95/100 else 3/2
    npClip prob (1/20) upper_cap

/-- Method `DemandCurve.expected_days_to_lease` (`pricing.py` lines 62-65). -/
def DemandCurve.expected_days_to_lease (dc : DemandCurve) (price base_price : ℚ) : ℚ :=
  let prob := dc.probability price base_price
  30 / prob

/-- Stage 1 of `_filter_comparables` (`pricing.py` lines 100-103):
`filtered[~filtered['comp_id'].isin(excluded_comp_ids)]`, applied only
when the exclusion list is non-empty and the column exists. -/
def excludeStage (hasId : Bool) (excluded_comp_ids : List String)
    (rows : List CompRow) : List CompRow :=
  if excluded_comp_ids ≠ [] ∧ hasId then
    rows.filter (fun c => c.comp_id ∉ excluded_comp_ids)
  else rows

/-- Stage 2 of `_filter_comparables` (`pricing.py` lines 105-109): keep
comps whose sqft is within ±20% of the unit's sqft, applied only when
the unit sqft is truthy and the column exists. -/
def sqftStage (sqftVal : Option ℚ) (hasSqft : Bool)
    (rows : List CompRow) : List CompRow :=
  match sqftVal with
  | some s =>
    if s ≠ 0 ∧ hasSqft then
      rows.filter (fun c => s * (8/10) ≤ c.comp_sqft ∧ c.comp_sqft ≤ s * (12/10))
    else rows
  | none => rows

/-- Stage 3 of `_filter_comparables` (`pricing.py` lines 110-114):
prefer active comps, keeping the previous set if none is active. -/
def availStage (hasAvail : Bool) (rows : List CompRow) : List CompRow :=
  if hasAvail then
    if rows.filter (fun c => c.is_available) ≠ [] then
      rows.filter (fun c => c.is_available)
    else rows
  else rows

/-- The three filter stages chained as in the source. -/
def filterChain (u : UnitData) (comps : CompsData)
    (excluded_comp_ids : List String) : List CompRow :=
  availStage comps.hasIsAvailable
    (sqftStage (unitSqftValue u) comps.hasCompSqft
      (excludeStage comps.hasCompId excluded_comp_ids comps.rows))

/-- Method `PricingOptimizer._filter_comparables` (`pricing.py` lines 94-116):
drop user-excluded comp ids, keep comps within ±20% of the unit's
sqft, prefer available listings, and fall back to the original input
if the surviving set is empty. -/
def filter_comparables (u : UnitData) (comps : CompsData)
    (excluded_comp_ids : List String) : CompsData :=
  if comps.rows = [] then comps
  else if filterChain u comps excluded_comp_ids ≠ [] then
    { comps with rows := filterChain u comps excluded_comp_ids }
  else comps

/-- Method `PricingOptimizer._market_median` (`pricing.py` lines 118-123). -/
def market_median (comps : CompsData) : Option ℚ :=
  if comps.rows = [] then none
  else if ¬ comps.hasCompPrice then none
  else medianQ (comps.rows.map (·.comp_price))

/-- Method `PricingOptimizer._confidence_from_count` (`pricing.py` lines 132-139). -/
def confidence_from_count (comp_count : ℕ) : ℚ :=
  if comp_count ≥ 10 then 95/100
  else if comp_count ≥ 5 then 80/100
  else if comp_count ≥ 3 then 60/100
  else 30/100

/-- Method `PricingOptimizer._expected_days_by_strategy` (`pricing.py` lines 141-146). -/
def expected_days_by_strategy : OptimizationStrategy → ℤ
  | .revenue => 38
  | .lease_up => 23
  | _ => 30

/-- Method `PricingOptimizer.revenue_optimization` (`pricing.py` lines 149-176):
the rounded maximum of the current rent and 105% of the market median. -/
def revenue_optimization (u : UnitData) (comps : CompsData)
    (excluded_comp_ids : List String) : ℚ × Option ℚ :=
  let filtered := filter_comparables u comps excluded_comp_ids
  match market_median filtered with
  | none => (u.advertised_rent, none)
  | some market =>
    let market_premium := market * (105/100)
    let suggested := max u.advertised_rent market_premium
    ((pyRound suggested : ℚ), some (confidence_from_count filtered.rows.length))

/-- Method `PricingOptimizer.leaseup_optimization` (`pricing.py` lines 178-200):
95% of the market median, rounded. -/
def leaseup_optimization (u : UnitData) (comps : CompsData)
    (excluded_comp_ids : List String) : ℚ × Option ℚ :=
  let filtered := filter_comparables u comps excluded_comp_ids
  match market_median filtered with
  | none => (u.advertised_rent, none)
  | some market =>
    ((pyRound (market * (95/100)) : ℚ), some (confidence_from_count filtered.rows.length))

/-- Method `PricingOptimizer.balanced_optimization` (`pricing.py` lines 202-237):
stay within 10% of market, otherwise move halfway up or 30% down
toward the market median.  The `weight` argument is accepted but
never read by the body. -/
def balanced_optimization (u : UnitData) (comps : CompsData)
    (weight : ℚ) (excluded_comp_ids : List String) : ℚ × Option ℚ :=
  let filtered := filter_comparables u comps excluded_comp_ids
  match market_median filtered with
  | none => (u.advertised_rent, none)
  | some market =>
    let current_rent := u.advertised_rent
    let market_ratio := if market > 0 then current_rent / market else 1
    let suggested :=
      if 9/10 ≤ market_ratio ∧ market_ratio ≤ 11/10 then current_rent
      else if current_rent < market then current_rent + (market - current_rent) * (1/2)
      else current_rent - (current_rent - market) * (3/10)
    ((pyRound suggested : ℚ), some (confidence_from_count filtered.rows.length))

/-- The `comp_data` summary dict built by `optimize_unit`. -/
structure CompSummary where
  total_comps : ℕ
  avg_comp_price : ℚ
  median_comp_price : ℚ
  min_comp_price : ℚ
  max_comp_price : ℚ
  avg_similarity_score : Option ℚ
  deriving DecidableEq, Repr

/-- The `OptimizationResult` record returned by `optimize_unit`
(`comp_data = none` models the empty dict `{}`). -/
structure OptimizationResult where
  unit_id : String
  current_rent : ℚ
  suggested_rent : ℚ
  rent_change : ℚ
  rent_change_pct : ℚ
  confidence : Option ℚ
  strategy_used : OptimizationStrategy
  demand_probability : Option ℚ
  expected_days_to_lease : Option ℤ
  revenue_impact_annual : ℚ
  comp_data : Option CompSummary
  deriving DecidableEq, Repr

/-- The strategy dispatch at the top of `optimize_unit`
(`pricing.py` lines 256-264), including `weight or 0.5`. -/
def dispatch_strategy (u : UnitData) (comps : CompsData)
    (strategy : OptimizationStrategy) (weight : Option ℚ)
    (excluded_comp_ids : List String) : Except String (ℚ × Option ℚ) :=
  match strategy with
  | .revenue => .ok (revenue_optimization u comps excluded_comp_ids)
  | .lease_up => .ok (leaseup_optimization u comps excluded_comp_ids)
  | .balanced =>
    let w := match weight with
      | some v => if v = 0 then 1/2 else v
      | none => 1/2
    .ok (balanced_optimization u comps w excluded_comp_ids)
  | .invalid tag => .error ("Unknown optimization strategy: " ++ tag)

/-- Method `PricingOptimizer.optimize_unit` (`pricing.py` lines 239-302). -/
def optimize_unit (u : UnitData) (comps : CompsData)
    (strategy : OptimizationStrategy) (weight : Option ℚ)
    (excluded_comp_ids : List String) : Except String OptimizationResult :=
  let current_rent := u.advertised_rent
  match dispatch_strategy u comps strategy weight excluded_comp_ids with
  | .error e => .error e
  | .ok (suggested_rent, confidence) =>
    if comps.rows = [] then
      .ok {
        unit_id := u.unit_id
        current_rent := current_rent
        suggested_rent := pyRound2 (pyOrQ suggested_rent current_rent)
        rent_change := 0
        rent_change_pct := 0
        confidence := confidence
        strategy_used := strategy
        demand_probability := none
        expected_days_to_lease := none
        revenue_impact_annual := 0
        comp_data := none }
    else
      let rent_change := suggested_rent - current_rent
      let rent_change_pct := if current_rent ≠ 0 then rent_change / current_rent * 100 else 0
      let revenue_impact_annual := rent_change * 12
      let filtered := filter_comparables u comps excluded_comp_ids
      let prices := filtered.rows.map (·.comp_price)
      let havePrices := comps.hasCompPrice ∧ filtered.rows.length > 0
      let summary : CompSummary := {
        total_comps := filtered.rows.length
        avg_comp_price := if havePrices then listMean prices else 0
        median_comp_price := if havePrices then (medianQ prices).getD 0 else 0
        min_comp_price := if havePrices then listMin prices else 0
        max_comp_price := if havePrices then listMax prices else 0
        avg_similarity_score :=
          if comps.hasSimilarity ∧ filtered.rows.length > 0 then
            some (listMean (filtered.rows.map (·.similarity_score)))
          else none }
      .ok {
        unit_id := u.unit_id
        current_rent := current_rent
        suggested_rent := pyRound2 (pyOrQ suggested_rent current_rent)
        rent_change := pyRound2 rent_change
        rent_change_pct := pyRound2 rent_change_pct
        confidence := confidence
        strategy_used := strategy
        demand_probability := none
        expected_days_to_lease := some (expected_days_by_strategy strategy)
        revenue_impact_annual := pyRound2 revenue_impact_annual
        comp_data := some summary }

/-- Helper `_optimize_single_unit` (`main.py` lines 357-385): fetch the unit's
comparables and optimize; any exception (from the fetch or from the
optimizer) is caught and turned into `none`.  The effectful fetch is
modelled by a function giving each unit's fetch outcome. -/
def optimize_single_unit (fetch : UnitData → Except String CompsData)
    (strategy : OptimizationStrategy) (weight : Option ℚ)
    (u : UnitData) : Option OptimizationResult :=
  match fetch u with
  | .error _ => none
  | .ok comps => (optimize_unit u comps strategy weight []).toOption

/-- Response `BatchOptimizeResponse` fields built by `batch_optimize`. -/
structure BatchOptimizeResponse where
  total_units_processed : ℕ
  successful_optimizations : ℕ
  failed_optimizations : ℕ
  results : List OptimizationResult
  deriving DecidableEq, Repr

/-- Endpoint `batch_optimize` (`main.py` lines 388-453) on the resolved unit
list: run every unit through `_optimize_single_unit`, collect the
successes, count the failures. -/
def batch_optimize (units : List UnitData)
    (fetch : UnitData → Except String CompsData)
    (strategy : OptimizationStrategy) (weight : Option ℚ) : BatchOptimizeResponse :=
  if units = [] then ⟨0, 0, 0, []⟩
  else
    let results := units.map (optimize_single_unit fetch strategy weight)
    let successful_results := results.filterMap id
    let failed_count := (results.filter (fun r => r.isNone)).length
    ⟨units.length, successful_results.length, failed_count, successful_results⟩

/-! ### Concrete example data -/

deriving instance DecidableEq for Except

/-- A comparable row with the given id, price and sqft; available, zero
similarity score. -/
def sampleComp (id : String) (price sqft : ℚ) : CompRow :=
  { comp_id := id, comp_price := price, comp_sqft := sqft,
    is_available := true, similarity_score := 0 }

/-- A comparables frame with `comp_id`, `comp_price` and `comp_sqft`
columns present and the optional `is_available`/`similarity_score`
columns absent. -/
def sampleFrame (rows : List CompRow) : CompsData :=
  { rows := rows, hasCompId := true, hasCompPrice := true, hasCompSqft := true,
    hasIsAvailable := false, hasSimilarity := false }

/-- Unit without sqft information, advertised at $1400. -/
def unitA : UnitData :=
  { unit_id := "U-A", sqft := none, our_sqft := none, advertised_rent := 1400 }

/-- Unit without sqft information, advertised at $1000. -/
def unitB : UnitData :=
  { unit_id := "U-B", sqft := none, our_sqft := none, advertised_rent := 1000 }

/-- A 1000 sqft unit advertised at $1000. -/
def unitC : UnitData :=
  { unit_id := "U-C", sqft := some 1000, our_sqft := none, advertised_rent := 1000 }

/-- Unit advertised at $1000.005 (three decimal places). -/
def unitD : UnitData :=
  { unit_id := "U-D", sqft := none, our_sqft := none,
    advertised_rent := 1000 + 1/200 }

/-- A single comparable priced at $1000. -/
def compsLow : CompsData := sampleFrame [sampleComp "c1" 1000 1000]

/-- A single comparable priced at $2000. -/
def compsHigh : CompsData := sampleFrame [sampleComp "c1" 2000 1000]

/-- A single comparable priced at $1500. -/
def compsMid : CompsData := sampleFrame [sampleComp "c1" 1500 1000]

/-- Two comparables: one in the unit's size band, one far outside it. -/
def compsBand : CompsData :=
  sampleFrame [sampleComp "a" 1000 1000, sampleComp "b" 2000 5000]

/-- An empty comparables frame. -/
def compsEmpty : CompsData := sampleFrame []

/-- The probability formula exactly as the specification words it:
`1 + elasticity × ((price − base)/base) × 100` clipped to
`[0.05, upperCap]`, with `upperCap = 0.95` for `price/base < 0.6`
and `1.5` otherwise, and `0.5` when the baseline is not positive. -/
def probability_spec (e price base : ℚ) : ℚ :=
  if base ≤ 0 then 1/2
  else
    min (max (1 + e * ((price - base) / base) * 100) (1/20))
      (if price / base < 6/10 then 95/100 else 3/2)

/-- The Balanced price formula as implemented: stay at the current
rent when it is within 10% of the market median, move halfway up when
below market, move 30% of the gap down when above. -/
def balanced_target (current_rent market : ℚ) : ℚ :=
  if 9/10 ≤ (if market > 0 then current_rent / market else 1) ∧
      (if market > 0 then current_rent / market else 1) ≤ 11/10 then
    current_rent
  else if current_rent < market then
    current_rent + (market - current_rent) * (1/2)
  else
    current_rent - (current_rent - market) * (3/10)

/-- The concrete result of optimizing `unitB` against `compsHigh` with
the Revenue strategy. -/
def resultRevenueB : OptimizationResult :=
  { unit_id := "U-B", current_rent := 1000, suggested_rent := 2100,
    rent_change := 1100, rent_change_pct := 110, confidence := some (3/10),
    strategy_used := .revenue, demand_probability := none,
    expected_days_to_lease := some 38, revenue_impact_annual := 13200,
    comp_data := some ⟨1, 2000, 2000, 2000, 2000, none⟩ }

/-- The concrete result of optimizing `unitB` against an empty frame
with the LeaseUp strategy. -/
def resultEmptyB : OptimizationResult :=
  { unit_id := "U-B", current_rent := 1000, suggested_rent := 1000,
    rent_change := 0, rent_change_pct := 0, confidence := none,
    strategy_used := .lease_up, demand_probability := none,
    expected_days_to_lease := none, revenue_impact_annual := 0,
    comp_data := none }

/-! ### Helper lemmas -/

theorem pyRound_ge (q : ℚ) : q - 1/2 ≤ (pyRound q : ℚ) := by
  have h0 : ((⌊q⌋ : ℤ) : ℚ) ≤ q := Int.floor_le q
  have h1 : q < (⌊q⌋ : ℚ) + 1 := Int.lt_floor_add_one q
  simp only [pyRound]
  split_ifs <;> push_cast <;> linarith

theorem pyRound_le (q : ℚ) : (pyRound q : ℚ) ≤ q + 1/2 := by
  have h0 : ((⌊q⌋ : ℤ) : ℚ) ≤ q := Int.floor_le q
  have h1 : q < (⌊q⌋ : ℚ) + 1 := Int.lt_floor_add_one q
  simp only [pyRound]
  split_ifs with ha hb <;> push_cast <;> linarith

theorem pyRound_intCast (k : ℤ) : pyRound (k : ℚ) = k := by
  simp [pyRound]

theorem pyRound2_cent (k : ℤ) : pyRound2 ((k : ℚ) / 100) = (k : ℚ) / 100 := by
  have h : ((k : ℚ) / 100) * 100 = (k : ℚ) := by
    field_simp
  simp only [pyRound2, h, pyRound_intCast]

theorem pyRound2_intCast (k : ℤ) : pyRound2 (k : ℚ) = (k : ℚ) := by
  have h : ((k : ℚ)) = ((100 * k : ℤ) : ℚ) / 100 := by
    push_cast
    ring
  rw [h, pyRound2_cent]

theorem medianQ_isSome {xs : List ℚ} (h : xs ≠ []) : ∃ m, medianQ xs = some m := by
  simp only [medianQ, if_neg h]
  exact ⟨_, rfl⟩

theorem market_median_eq_none_iff (c : CompsData) :
    market_median c = none ↔ (c.rows = [] ∨ c.hasCompPrice = false) := by
  unfold market_median
  by_cases h1 : c.rows = []
  · simp [h1]
  · by_cases h2 : c.hasCompPrice = true
    · obtain ⟨m, hm⟩ := medianQ_isSome
        (show c.rows.map (·.comp_price) ≠ [] by simpa using h1)
      simp [h1, h2, hm]
    · simp only [Bool.not_eq_true] at h2
      simp [h1, h2]

theorem excludeStage_subset (hasId : Bool) (ex : List String) (rows : List CompRow) :
    excludeStage hasId ex rows ⊆ rows := by
  unfold excludeStage
  split_ifs
  · exact List.filter_subset' _
  · exact fun _ h => h

theorem sqftStage_subset (v : Option ℚ) (hasSqft : Bool) (rows : List CompRow) :
    sqftStage v hasSqft rows ⊆ rows := by
  unfold sqftStage
  cases v with
  | some s =>
    dsimp only
    split_ifs
    · exact List.filter_subset' _
    · exact fun _ h => h
  | none => exact fun _ h => h

theorem availStage_subset (hasAvail : Bool) (rows : List CompRow) :
    availStage hasAvail rows ⊆ rows := by
  unfold availStage
  split_ifs
  · exact List.filter_subset' _
  · exact fun _ h => h
  · exact fun _ h => h

theorem filterChain_subset (u : UnitData) (comps : CompsData) (ex : List String) :
    filterChain u comps ex ⊆ comps.rows := by
  unfold filterChain
  intro c hc
  exact excludeStage_subset _ _ _ (sqftStage_subset _ _ _ (availStage_subset _ _ hc))

theorem mem_excludeStage_not_excluded {ex : List String} {rows : List CompRow}
    {c : CompRow} (hc : c ∈ excludeStage true ex rows) : c.comp_id ∉ ex := by
  unfold excludeStage at hc
  by_cases hex : ex = []
  · subst hex
    simp
  · rw [if_pos ⟨hex, rfl⟩] at hc
    have := List.mem_filter.mp hc
    simpa using this.2

theorem mem_sqftStage_band {s : ℚ} {hasSqft : Bool} {rows : List CompRow}
    {c : CompRow} (hs : s ≠ 0) (hcol : hasSqft = true)
    (hc : c ∈ sqftStage (some s) hasSqft rows) :
    s * (8/10) ≤ c.comp_sqft ∧ c.comp_sqft ≤ s * (12/10) := by
  unfold sqftStage at hc
  dsimp only at hc
  rw [if_pos ⟨hs, hcol⟩] at hc
  have := List.mem_filter.mp hc
  simpa using this.2

theorem filter_comparables_flags (u : UnitData) (comps : CompsData) (ex : List String) :
    ∃ rs, filter_comparables u comps ex = { comps with rows := rs } := by
  unfold filter_comparables
  split_ifs
  · exact ⟨comps.rows, rfl⟩
  · exact ⟨_, rfl⟩
  · exact ⟨comps.rows, rfl⟩

theorem filter_comparables_rows_nil_iff (u : UnitData) (comps : CompsData) (ex : List String) :
    (filter_comparables u comps ex).rows = [] ↔ comps.rows = [] := by
  unfold filter_comparables
  split_ifs with h1 h2
  · simp [h1]
  · simp [h2, h1]
  · simp [h1]

theorem market_median_filter_isSome (u : UnitData) (comps : CompsData) (ex : List String)
    (hne : comps.rows ≠ []) (hp : comps.hasCompPrice = true) :
    ∃ m, market_median (filter_comparables u comps ex) = some m := by
  have hflag : (filter_comparables u comps ex).hasCompPrice = true := by
    obtain ⟨rs, hrs⟩ := filter_comparables_flags u comps ex
    rw [hrs]
    exact hp
  have hrows : (filter_comparables u comps ex).rows ≠ [] := by
    rw [ne_eq, filter_comparables_rows_nil_iff]
    exact hne
  obtain ⟨m, hm⟩ := medianQ_isSome
    (show (filter_comparables u comps ex).rows.map (·.comp_price) ≠ [] by
      simpa using hrows)
  refine ⟨m, ?_⟩
  unfold market_median
  rw [if_neg hrows, if_neg (by simp [hflag])]
  exact hm

theorem count_none_add_filterMap {α : Type} (l : List (Option α)) :
    (l.filter (fun r => r.isNone)).length + (l.filterMap id).length = l.length := by
  induction l with
  | nil => rfl
  | cons h t ih =>
    cases h with
    | none =>
      simp [List.filter_cons, List.filterMap_cons]
      omega
    | some a =>
      simp [List.filter_cons, List.filterMap_cons]
      omega


/-- C7: `DemandCurve.probability` returns 0.5 for a non-positive
baseline and otherwise the elasticity formula clipped to
`[0.05, upperCap]` with the dynamic cap; `expected_days_to_lease`
is `30 / probability`. -/
theorem demand_curve_matches_spec (dc : DemandCurve) (price base_price : ℚ) :
    dc.probability price base_price = probability_spec dc.elasticity price base_price ∧
    dc.expected_days_to_lease price base_price = 30 / dc.probability price base_price := by
  constructor
  · unfold DemandCurve.probability probability_spec npClip
    by_cases hb : base_price ≤ 0
    · simp [hb]
    · have hb0 : base_price ≠ 0 := fun h => hb (le_of_eq h)
      simp [hb, hb0]
  · rfl

/-- C9: an unrecognized strategy tag makes `optimize_unit` raise a
`ValueError` that propagates to the caller; no result record is built. -/
theorem optimize_unit_invalid_strategy (u : UnitData) (comps : CompsData)
    (w : Option ℚ) (ex : List String) (tag : String) :
    optimize_unit u comps (.invalid tag) w ex =
      .error ("Unknown optimization strategy: " ++ tag) := rfl

/-- C10: the Balanced strategy ignores its `weight` argument: any two
weights in `[0, 1]` give identical price and confidence, both from
`balanced_optimization` directly and through `optimize_unit`. -/
theorem balanced_ignores_weight (u : UnitData) (comps : CompsData)
    (ex : List String) (w1 w2 : ℚ)
    (h1 : 0 ≤ w1) (h2 : w1 ≤ 1) (h3 : 0 ≤ w2) (h4 : w2 ≤ 1) :
    balanced_optimization u comps w1 ex = balanced_optimization u comps w2 ex ∧
    optimize_unit u comps .balanced (some w1) ex =
      optimize_unit u comps .balanced (some w2) ex :=
  ⟨rfl, rfl⟩

/-- C8: batch accounting: `processed` is the number of units,
`succeeded` the number of returned results, `failed` the difference,
and the results are exactly the per-unit successes — each unit's
outcome depends only on its own optimization, so one unit's failure
never suppresses another unit's result. -/
theorem batch_optimize_accounting (units : List UnitData)
    (fetch : UnitData → Except String CompsData)
    (s : OptimizationStrategy) (w : Option ℚ) :
    (batch_optimize units fetch s w).total_units_processed = units.length ∧
    (batch_optimize units fetch s w).results =
      units.filterMap (optimize_single_unit fetch s w) ∧
    (batch_optimize units fetch s w).successful_optimizations =
      (batch_optimize units fetch s w).results.length ∧
    (batch_optimize units fetch s w).failed_optimizations =
      (batch_optimize units fetch s w).total_units_processed -
        (batch_optimize units fetch s w).successful_optimizations := by
  by_cases hu : units = []
  · subst hu
    refine ⟨rfl, rfl, rfl, rfl⟩
  · have hmap : (units.map (optimize_single_unit fetch s w)).filterMap id =
        units.filterMap (optimize_single_unit fetch s w) := by
      rw [List.filterMap_map]
      rfl
    have hcount := count_none_add_filterMap (units.map (optimize_single_unit fetch s w))
    unfold batch_optimize
    rw [if_neg hu]
    refine ⟨rfl, hmap, rfl, ?_⟩
    show ((units.map (optimize_single_unit fetch s w)).filter (fun r => r.isNone)).length =
      units.length -
        ((units.map (optimize_single_unit fetch s w)).filterMap id).length
    have hlen : (units.map (optimize_single_unit fetch s w)).length = units.length :=
      List.length_map _ _
    omega

/-! ### Claim theorems -/

/-! ### Counterexample theorems -/

set_option maxRecDepth 10000 in
/-- C1 counterexample: with current rent $1400 and market median $1000
the claimed optimization interval is
`[max(1000×0.75, 1400×0.8), min(1000×1.25, 1400×1.3)] = [1120, 1250]`,
but the Revenue strategy returns `max(1400, 1050) = 1400`, outside the
interval — the code takes `max(current, median×1.05)` and performs no
bounded optimization. -/
theorem revenue_bounds_counterexample :
    market_median (filter_comparables unitA compsLow []) = some 1000 ∧
    (revenue_optimization unitA compsLow []).1 = 1400 ∧
    ¬ ((revenue_optimization unitA compsLow []).1 ≤
        min (1000 * (1 + max_price_adjustment))
          (unitA.advertised_rent * (13/10))) := by
  with_unfolding_all decide

set_option maxRecDepth 10000 in
/-- C2 counterexample: with current rent $1000 and market median $2000,
Revenue gives $2100 and LeaseUp $1900, whose 0.5/0.5 blend is $2000,
but Balanced returns $1500 (it moves halfway to the median instead of
blending the two strategies). -/
theorem balanced_blend_counterexample :
    (revenue_optimization unitB compsHigh []).1 = 2100 ∧
    (leaseup_optimization unitB compsHigh []).1 = 1900 ∧
    (balanced_optimization unitB compsHigh (1/2) []).1 = 1500 ∧
    (balanced_optimization unitB compsHigh (1/2) []).1 ≠
      (revenue_optimization unitB compsHigh []).1 * (1/2) +
        (leaseup_optimization unitB compsHigh []).1 * (1 - 1/2) := by
  with_unfolding_all decide

set_option maxRecDepth 10000 in
/-- C3 counterexample: on a non-empty comparable set the result's
`demand_probability` is still `null` (the field is hard-coded to
`None`), refuting "both non-null on a non-empty set". -/
theorem demand_probability_counterexample :
    compsHigh.rows ≠ [] ∧
    (optimize_unit unitB compsHigh .revenue none []).map
        (fun r => (r.demand_probability, r.confidence)) =
      .ok (none, some (3/10)) := by
  with_unfolding_all decide

set_option maxRecDepth 10000 in
/-- C4 counterexample: excluding the only comparable empties the filter
chain, so the fallback returns the original input — the excluded comp
id survives in the filter output and is counted in `comp_data`. -/
theorem exclusion_counterexample :
    ((filter_comparables unitB compsMid ["c1"]).rows.map (fun c => c.comp_id)) =
      ["c1"] ∧
    (optimize_unit unitB compsMid .revenue none ["c1"]).map
        (fun r => r.comp_data.map (fun s => s.total_comps)) =
      .ok (some 1) := by
  with_unfolding_all decide

set_option maxRecDepth 10000 in
/-- C5 counterexample: excluding comp "a" leaves only the
out-of-band comp "b", the sqft stage then empties the set, and the
fallback returns the original input `[a, b]` — which neither satisfies
the ±20% band (comp "b" has 5000 sqft against a 1000 sqft unit) nor
equals the pre-stage set `[b]` the emptying stage started from. -/
theorem filter_band_counterexample :
    (filter_comparables unitC compsBand ["a"]).rows.map (fun c => c.comp_id) =
      ["a", "b"] ∧
    ¬ (∀ c ∈ (filter_comparables unitC compsBand ["a"]).rows,
        (1000 : ℚ) * (8/10) ≤ c.comp_sqft ∧ c.comp_sqft ≤ 1000 * (12/10)) ∧
    (filter_comparables unitC compsBand ["a"]).rows ≠
      compsBand.rows.filter (fun c => c.comp_id ∉ (["a"] : List String)) := by
  with_unfolding_all decide

set_option maxRecDepth 10000 in
/-- C6 counterexample: with no comparables and current rent $1000.005,
the result's `suggested_rent` is the 2-decimal rounding $1000.0, not
the unchanged current rent (rent change and confidence behave as
claimed). -/
theorem empty_comps_counterexample :
    (optimize_unit unitD compsEmpty .revenue none []).map
        (fun r => (r.suggested_rent, r.current_rent, r.rent_change, r.confidence)) =
      .ok (1000, 1000 + 1/200, 0, none) ∧
    (1000 : ℚ) ≠ 1000 + 1/200 :=
  ⟨by with_unfolding_all rfl, by norm_num⟩

/-- C4 amended: when the frame has a `comp_id` column, either no
excluded comp id survives the filter, or the filter fell back to
returning the original input unchanged (which may contain excluded
comps when the exclusions empty the chain). -/
theorem filter_respects_exclusions (u : UnitData) (comps : CompsData)
    (ex : List String) (hid : comps.hasCompId = true) :
    (∀ c ∈ (filter_comparables u comps ex).rows, c.comp_id ∉ ex) ∨
      filter_comparables u comps ex = comps := by
  unfold filter_comparables
  split_ifs with h1 h2
  · exact Or.inr rfl
  · left
    intro c hc
    have hchain : c ∈ filterChain u comps ex := hc
    have hexc : c ∈ excludeStage comps.hasCompId ex comps.rows := by
      unfold filterChain at hchain
      exact sqftStage_subset _ _ _ (availStage_subset _ _ hchain)
    rw [hid] at hexc
    exact mem_excludeStage_not_excluded hexc
  · exact Or.inr rfl

/-- C4 witness at a concrete input. -/
theorem filter_respects_exclusions_witness :
    compsMid.hasCompId = true ∧
    ((∀ c ∈ (filter_comparables unitB compsMid ["x9"]).rows, c.comp_id ∉ ["x9"]) ∨
      filter_comparables unitB compsMid ["x9"] = compsMid) :=
  ⟨rfl, filter_respects_exclusions unitB compsMid ["x9"] rfl⟩

/-- C5 amended: for a unit with positive (truthy) sqft and a frame
with a `comp_sqft` column, either every surviving comp is within the
±20% size band, or the filter returned the original input unchanged
(fallback); and the filter output is empty only when the input was. -/
theorem filter_band_or_fallback (u : UnitData) (comps : CompsData)
    (ex : List String) (s : ℚ) (hs : unitSqftValue u = some s) (hpos : 0 < s)
    (hcol : comps.hasCompSqft = true) :
    ((∀ c ∈ (filter_comparables u comps ex).rows,
        s * (8/10) ≤ c.comp_sqft ∧ c.comp_sqft ≤ s * (12/10)) ∨
      filter_comparables u comps ex = comps) ∧
    ((filter_comparables u comps ex).rows = [] → comps.rows = []) := by
  refine ⟨?_, (filter_comparables_rows_nil_iff u comps ex).mp⟩
  unfold filter_comparables
  split_ifs with h1 h2
  · exact Or.inr rfl
  · left
    intro c hc
    have hchain : c ∈ filterChain u comps ex := hc
    have hsq : c ∈ sqftStage (unitSqftValue u) comps.hasCompSqft
        (excludeStage comps.hasCompId ex comps.rows) := by
      unfold filterChain at hchain
      exact availStage_subset _ _ hchain
    rw [hs] at hsq
    exact mem_sqftStage_band (ne_of_gt hpos) hcol hsq
  · exact Or.inr rfl

/-- C5 witness at a concrete input. -/
theorem filter_band_or_fallback_witness :
    unitSqftValue unitC = some 1000 ∧ (0 : ℚ) < 1000 ∧
    compsBand.hasCompSqft = true ∧
    (((∀ c ∈ (filter_comparables unitC compsBand []).rows,
        (1000 : ℚ) * (8/10) ≤ c.comp_sqft ∧ c.comp_sqft ≤ 1000 * (12/10)) ∨
      filter_comparables unitC compsBand [] = compsBand) ∧
    ((filter_comparables unitC compsBand []).rows = [] → compsBand.rows = [])) :=
  ⟨by with_unfolding_all rfl, by norm_num, rfl,
    filter_band_or_fallback unitC compsBand [] 1000
      (by with_unfolding_all rfl) (by norm_num) rfl⟩

theorem pyOrQ_self (a : ℚ) : pyOrQ a a = a := by
  unfold pyOrQ
  split_ifs <;> rfl

/-- C6 amended: with an empty comparable set, every strategy leaves
the rent unchanged: the result has `suggested_rent` equal to
`current_rent` (given that the advertised rent has at most two decimal
places, since the result field is rounded to cents), `rent_change = 0`
and `confidence = null`. -/
theorem optimize_unit_empty_comps (u : UnitData) (comps : CompsData)
    (s : OptimizationStrategy) (w : Option ℚ) (ex : List String)
    (r : OptimizationResult) (k : ℤ)
    (hempty : comps.rows = [])
    (hcent : u.advertised_rent = (k : ℚ) / 100)
    (hok : optimize_unit u comps s w ex = .ok r) :
    r.suggested_rent = r.current_rent ∧ r.rent_change = 0 ∧ r.confidence = none := by
  have hfilter : filter_comparables u comps ex = comps := by
    unfold filter_comparables
    rw [if_pos hempty]
  have hmm : market_median comps = none := by
    unfold market_median
    rw [if_pos hempty]
  have common : dispatch_strategy u comps s w ex = .ok (u.advertised_rent, none) →
      r.suggested_rent = r.current_rent ∧ r.rent_change = 0 ∧ r.confidence = none := by
    intro hdisp
    simp only [optimize_unit, hdisp, if_pos hempty] at hok
    injection hok with hr
    subst hr
    refine ⟨?_, rfl, rfl⟩
    show pyRound2 (pyOrQ u.advertised_rent u.advertised_rent) = u.advertised_rent
    rw [pyOrQ_self, hcent, pyRound2_cent]
  cases s with
  | invalid tag =>
    exfalso
    simp [optimize_unit, dispatch_strategy] at hok
  | revenue =>
    apply common
    simp only [dispatch_strategy]
    unfold revenue_optimization
    rw [hfilter]
    simp [hmm]
  | lease_up =>
    apply common
    simp only [dispatch_strategy]
    unfold leaseup_optimization
    rw [hfilter]
    simp [hmm]
  | balanced =>
    apply common
    simp only [dispatch_strategy]
    unfold balanced_optimization
    rw [hfilter]
    simp [hmm]

/-- C6 witness at a concrete input. -/
theorem optimize_unit_empty_comps_witness :
    compsEmpty.rows = [] ∧
    unitB.advertised_rent = ((100000 : ℤ) : ℚ) / 100 ∧
    optimize_unit unitB compsEmpty .lease_up none [] = .ok resultEmptyB ∧
    (resultEmptyB.suggested_rent = resultEmptyB.current_rent ∧
      resultEmptyB.rent_change = 0 ∧ resultEmptyB.confidence = none) :=
  ⟨rfl, by norm_num [unitB], by with_unfolding_all rfl,
    optimize_unit_empty_comps unitB compsEmpty .lease_up none [] resultEmptyB 100000
      rfl (by norm_num [unitB]) (by with_unfolding_all rfl)⟩

/-- C1 amended: on a non-empty comparable set (with a price column)
the Revenue strategy returns the rounded maximum of the current rent
and 105% of the filtered market median, with confidence derived from
the comp count; in particular the price never falls below the current
rent by more than the rounding half-dollar (there is no bounded
optimization and no upper bound tied to `max_price_adjustment`). -/
theorem revenue_optimization_characterization (u : UnitData)
    (comps : CompsData) (ex : List String)
    (hne : comps.rows ≠ []) (hp : comps.hasCompPrice = true) :
    ∃ base, market_median (filter_comparables u comps ex) = some base ∧
      revenue_optimization u comps ex =
        ((pyRound (max u.advertised_rent (base * (105/100))) : ℚ),
          some (confidence_from_count (filter_comparables u comps ex).rows.length)) ∧
      u.advertised_rent - 1/2 ≤ (revenue_optimization u comps ex).1 := by
  obtain ⟨m, hm⟩ := market_median_filter_isSome u comps ex hne hp
  have heq : revenue_optimization u comps ex =
      ((pyRound (max u.advertised_rent (m * (105/100))) : ℚ),
        some (confidence_from_count (filter_comparables u comps ex).rows.length)) := by
    unfold revenue_optimization
    simp [hm]
  refine ⟨m, hm, heq, ?_⟩
  rw [heq]
  have h1 := pyRound_ge (max u.advertised_rent (m * (105/100)))
  have h2 := le_max_left u.advertised_rent (m * (105/100))
  simp only
  linarith

/-- C1 witness at a concrete input. -/
theorem revenue_characterization_witness :
    compsLow.rows ≠ [] ∧ compsLow.hasCompPrice = true ∧
    (∃ base, market_median (filter_comparables unitA compsLow []) = some base ∧
      revenue_optimization unitA compsLow [] =
        ((pyRound (max unitA.advertised_rent (base * (105/100))) : ℚ),
          some (confidence_from_count (filter_comparables unitA compsLow []).rows.length)) ∧
      unitA.advertised_rent - 1/2 ≤ (revenue_optimization unitA compsLow []).1) :=
  ⟨by simp [compsLow, sampleFrame], rfl,
    revenue_optimization_characterization unitA compsLow []
      (by simp [compsLow, sampleFrame]) rfl⟩

/-- C2 amended: on a non-empty comparable set (with a price column)
the Balanced strategy ignores the weight and returns the rounded
`balanced_target`: the current rent if within 10% of the filtered
market median, else a move halfway up toward the median (when below)
or 30% of the gap down (when above); the result always stays between
current rent and median up to the rounding half-dollar, rather than
blending the Revenue and LeaseUp prices. -/
theorem balanced_optimization_characterization (u : UnitData)
    (comps : CompsData) (weight : ℚ) (ex : List String)
    (hne : comps.rows ≠ []) (hp : comps.hasCompPrice = true) :
    ∃ m, market_median (filter_comparables u comps ex) = some m ∧
      balanced_optimization u comps weight ex =
        ((pyRound (balanced_target u.advertised_rent m) : ℚ),
          some (confidence_from_count (filter_comparables u comps ex).rows.length)) ∧
      min u.advertised_rent m - 1/2 ≤ (balanced_optimization u comps weight ex).1 ∧
      (balanced_optimization u comps weight ex).1 ≤ max u.advertised_rent m + 1/2 := by
  obtain ⟨m, hm⟩ := market_median_filter_isSome u comps ex hne hp
  have htarget : min u.advertised_rent m ≤ balanced_target u.advertised_rent m ∧
      balanced_target u.advertised_rent m ≤ max u.advertised_rent m := by
    unfold balanced_target
    have hminl := min_le_left u.advertised_rent m
    have hminr := min_le_right u.advertised_rent m
    have hmaxl := le_max_left u.advertised_rent m
    have hmaxr := le_max_right u.advertised_rent m
    by_cases hm0 : m > 0
    · simp only [if_pos hm0]
      split_ifs with h1 h2
      · exact ⟨hminl, hmaxl⟩
      · constructor <;> linarith
      · push_neg at h2
        constructor <;> linarith
    · simp only [if_neg hm0]
      rw [if_pos (by norm_num)]
      exact ⟨hminl, hmaxl⟩
  have heq : balanced_optimization u comps weight ex =
      ((pyRound (balanced_target u.advertised_rent m) : ℚ),
        some (confidence_from_count (filter_comparables u comps ex).rows.length)) := by
    unfold balanced_optimization balanced_target
    simp [hm]
  refine ⟨m, hm, heq, ?_, ?_⟩ <;> rw [heq] <;> simp only
  · have := pyRound_ge (balanced_target u.advertised_rent m)
    linarith [htarget.1]
  · have := pyRound_le (balanced_target u.advertised_rent m)
    linarith [htarget.2]

/-- C2 witness at a concrete input. -/
theorem balanced_characterization_witness :
    compsHigh.rows ≠ [] ∧ compsHigh.hasCompPrice = true ∧
    (∃ m, market_median (filter_comparables unitB compsHigh []) = some m ∧
      balanced_optimization unitB compsHigh (1/2) [] =
        ((pyRound (balanced_target unitB.advertised_rent m) : ℚ),
          some (confidence_from_count (filter_comparables unitB compsHigh []).rows.length)) ∧
      min unitB.advertised_rent m - 1/2 ≤ (balanced_optimization unitB compsHigh (1/2) []).1 ∧
      (balanced_optimization unitB compsHigh (1/2) []).1 ≤ max unitB.advertised_rent m + 1/2) :=
  ⟨by simp [compsHigh, sampleFrame], rfl,
    balanced_optimization_characterization unitB compsHigh (1/2) []
      (by simp [compsHigh, sampleFrame]) rfl⟩

/-- C10 witness at a concrete input. -/
theorem balanced_ignores_weight_witness :
    ((0 : ℚ) ≤ 1/5 ∧ (1/5 : ℚ) ≤ 1 ∧ (0 : ℚ) ≤ 9/10 ∧ (9/10 : ℚ) ≤ 1) ∧
    (balanced_optimization unitB compsHigh (1/5) [] =
        balanced_optimization unitB compsHigh (9/10) [] ∧
      optimize_unit unitB compsHigh .balanced (some (1/5)) [] =
        optimize_unit unitB compsHigh .balanced (some (9/10)) []) :=
  ⟨by norm_num,
    balanced_ignores_weight unitB compsHigh [] (1/5) (9/10)
      (by norm_num) (by norm_num) (by norm_num) (by norm_num)⟩

theorem pyRound2_sub_cent (a b : ℤ) :
    pyRound2 ((a : ℚ)/100 - (b : ℚ)/100) = (a : ℚ)/100 - (b : ℚ)/100 := by
  have h : (a : ℚ)/100 - (b : ℚ)/100 = ((a - b : ℤ) : ℚ)/100 := by
    push_cast
    ring
  rw [h, pyRound2_cent]

theorem dispatch_shape (u : UnitData) (comps : CompsData)
    (s : OptimizationStrategy) (w : Option ℚ) (ex : List String)
    (p : ℚ) (conf : Option ℚ)
    (hdisp : dispatch_strategy u comps s w ex = .ok (p, conf)) :
    (market_median (filter_comparables u comps ex) = none ∧
      p = u.advertised_rent ∧ conf = none) ∨
    ((∃ m, market_median (filter_comparables u comps ex) = some m) ∧
      (∃ i : ℤ, p = (i : ℚ)) ∧
      conf = some (confidence_from_count (filter_comparables u comps ex).rows.length)) := by
  rcases hmed : market_median (filter_comparables u comps ex) with _ | m
  · left
    refine ⟨rfl, ?_⟩
    cases s with
    | invalid tag => simp [dispatch_strategy] at hdisp
    | revenue =>
      simp only [dispatch_strategy] at hdisp
      injection hdisp with h
      unfold revenue_optimization at h
      simp only [hmed] at h
      injection h with h1 h2
      exact ⟨h1.symm, h2.symm⟩
    | lease_up =>
      simp only [dispatch_strategy] at hdisp
      injection hdisp with h
      unfold leaseup_optimization at h
      simp only [hmed] at h
      injection h with h1 h2
      exact ⟨h1.symm, h2.symm⟩
    | balanced =>
      simp only [dispatch_strategy] at hdisp
      injection hdisp with h
      unfold balanced_optimization at h
      simp only [hmed] at h
      injection h with h1 h2
      exact ⟨h1.symm, h2.symm⟩
  · right
    refine ⟨⟨m, rfl⟩, ?_⟩
    cases s with
    | invalid tag => simp [dispatch_strategy] at hdisp
    | revenue =>
      simp only [dispatch_strategy] at hdisp
      injection hdisp with h
      unfold revenue_optimization at h
      simp only [hmed] at h
      injection h with h1 h2
      exact ⟨⟨_, h1.symm⟩, h2.symm⟩
    | lease_up =>
      simp only [dispatch_strategy] at hdisp
      injection hdisp with h
      unfold leaseup_optimization at h
      simp only [hmed] at h
      injection h with h1 h2
      exact ⟨⟨_, h1.symm⟩, h2.symm⟩
    | balanced =>
      simp only [dispatch_strategy] at hdisp
      injection hdisp with h
      unfold balanced_optimization at h
      simp only [hmed] at h
      injection h with h1 h2
      exact ⟨⟨_, h1.symm⟩, h2.symm⟩

/-- C3 amended: for every successful `optimize_unit` call whose
strategy suggests a nonzero price and whose unit rent has at most two
decimal places: `rent_change = suggested_rent − current_rent` and
`revenue_impact_annual = rent_change × 12`; `confidence` is null
exactly when the comparable set is empty or lacks a price column; and
`demand_probability` is always null, never populated. -/
theorem optimize_unit_result_invariants (u : UnitData) (comps : CompsData)
    (s : OptimizationStrategy) (w : Option ℚ) (ex : List String)
    (r : OptimizationResult) (p : ℚ) (conf : Option ℚ) (k : ℤ)
    (hdisp : dispatch_strategy u comps s w ex = .ok (p, conf))
    (hnz : p ≠ 0)
    (hcent : u.advertised_rent = (k : ℚ) / 100)
    (hok : optimize_unit u comps s w ex = .ok r) :
    r.rent_change = r.suggested_rent - r.current_rent ∧
    r.revenue_impact_annual = r.rent_change * 12 ∧
    (r.confidence = none ↔ (comps.rows = [] ∨ comps.hasCompPrice = false)) ∧
    r.demand_probability = none := by
  have hp2 : ∃ j : ℤ, p = (j : ℚ) / 100 := by
    rcases dispatch_shape u comps s w ex p conf hdisp with ⟨_, hcur, _⟩ | ⟨_, ⟨i, hi⟩, _⟩
    · exact ⟨k, by rw [hcur, hcent]⟩
    · refine ⟨100 * i, ?_⟩
      rw [hi]
      push_cast
      ring
  obtain ⟨j, hj⟩ := hp2
  simp only [optimize_unit, hdisp] at hok
  by_cases hempty : comps.rows = []
  · have hfe : filter_comparables u comps ex = comps := by
      unfold filter_comparables
      rw [if_pos hempty]
    have hmede : market_median (filter_comparables u comps ex) = none := by
      rw [hfe]
      unfold market_median
      rw [if_pos hempty]
    rcases dispatch_shape u comps s w ex p conf hdisp with ⟨_, hcur, hconf⟩ | ⟨⟨m, hm⟩, _, _⟩
    swap
    · rw [hm] at hmede
      exact absurd hmede (by simp)
    rw [if_pos hempty] at hok
    injection hok with hr
    subst hr
    refine ⟨?_, ?_, ?_, rfl⟩
    · show (0 : ℚ) = pyRound2 (pyOrQ p u.advertised_rent) - u.advertised_rent
      rw [hcur, pyOrQ_self, hcent, pyRound2_cent]
      ring
    · show (0 : ℚ) = 0 * 12
      norm_num
    · show conf = none ↔ (comps.rows = [] ∨ comps.hasCompPrice = false)
      simp [hconf, hempty]
  · rw [if_neg hempty] at hok
    injection hok with hr
    subst hr
    refine ⟨?_, ?_, ?_, rfl⟩
    · show pyRound2 (p - u.advertised_rent) =
        pyRound2 (pyOrQ p u.advertised_rent) - u.advertised_rent
      unfold pyOrQ
      rw [if_neg hnz, hj, hcent, pyRound2_sub_cent, pyRound2_cent]
    · show pyRound2 ((p - u.advertised_rent) * 12) =
        pyRound2 (p - u.advertised_rent) * 12
      rw [hj, hcent, pyRound2_sub_cent]
      have h12 : ((j : ℚ)/100 - (k : ℚ)/100) * 12 = ((12 * (j - k) : ℤ) : ℚ)/100 := by
        push_cast
        ring
      rw [h12, pyRound2_cent]
    · show conf = none ↔ (comps.rows = [] ∨ comps.hasCompPrice = false)
      rcases dispatch_shape u comps s w ex p conf hdisp with ⟨hmed, _, hconf⟩ | ⟨⟨m, hm⟩, _, hconf⟩
      · have hpf : comps.hasCompPrice = false := by
          rcases (market_median_eq_none_iff _).mp hmed with hrows | hpf
          · exact absurd ((filter_comparables_rows_nil_iff u comps ex).mp hrows) hempty
          · obtain ⟨rs, hrs⟩ := filter_comparables_flags u comps ex
            rw [hrs] at hpf
            exact hpf
        simp [hconf, hpf]
      · cases hpr : comps.hasCompPrice with
        | false =>
          exfalso
          have hnone : market_median (filter_comparables u comps ex) = none := by
            rw [market_median_eq_none_iff]
            right
            obtain ⟨rs, hrs⟩ := filter_comparables_flags u comps ex
            rw [hrs]
            exact hpr
          rw [hm] at hnone
          exact absurd hnone (by simp)
        | true =>
          simp [hconf, hempty]

/-- C3 witness at a concrete input. -/
theorem optimize_unit_result_invariants_witness :
    dispatch_strategy unitB compsHigh .revenue none [] = .ok (2100, some (3/10)) ∧
    (2100 : ℚ) ≠ 0 ∧
    unitB.advertised_rent = ((100000 : ℤ) : ℚ) / 100 ∧
    optimize_unit unitB compsHigh .revenue none [] = .ok resultRevenueB ∧
    (resultRevenueB.rent_change =
        resultRevenueB.suggested_rent - resultRevenueB.current_rent ∧
      resultRevenueB.revenue_impact_annual = resultRevenueB.rent_change * 12 ∧
      (resultRevenueB.confidence = none ↔
        (compsHigh.rows = [] ∨ compsHigh.hasCompPrice = false)) ∧
      resultRevenueB.demand_probability = none) :=
  ⟨by with_unfolding_all rfl, by norm_num, by norm_num [unitB],
    by with_unfolding_all rfl,
    optimize_unit_result_invariants unitB compsHigh .revenue none []
      resultRevenueB 2100 (some (3/10)) 100000
      (by with_unfolding_all rfl) (by norm_num) (by norm_num [unitB])
      (by with_unfolding_all rfl)⟩

end Ajax
